import Mathlib

/-!
Shallow embedding of the meme-dubbing pipeline (`meme_dubber.py`) and
verification of the specification's claims about it.

The program is a linear pipeline: `extract_text_from_meme` sends an image to
a vision-language model and parses the JSON response defensively;
`generate_audio_gtts` / `generate_audio_chattts` synthesize speech through two
external TTS libraries and write one fixed-name audio file each;
`process_meme` sequences the two stages and produces a user-facing status
message plus an optional audio file path.

External effects are modelled as explicit environments:
* the model call's outcome (`ModelOutcome`): an exception anywhere in the
  `try` block, a response body that `json.loads` rejects, or a parsed JSON
  value (`Json`);
* each TTS backend's behaviour (`GttsEnv`, `ChatttsEnv`): for a given input,
  the bracketed library code either raises, or completes its save call after
  which the output file does or does not exist (and is or is not empty).
Python exceptions catchable by `except Exception` are modelled by the
`raises` / `exn` outcomes; a function that catches them and returns a value
is embedded as a total Lean function.  JSON numbers are modelled as integers
(no claim depends on float values), and Python `str()` of non-string values
is modelled by `pyStr` with a simplified (escape-free) string `repr`.
-/

/-- Parsed JSON values, as produced by Python `json.loads`. -/
inductive Json where
  | jstr (s : String)
  | jnum (n : Int)
  | jbool (b : Bool)
  | jnull
  | jarr (elems : List Json)
  | jobj (fields : List (String × Json))

/-- Single-quote character, used by the Python-style `repr` of strings. -/
def squote : String := String.singleton (Char.ofNat 39)

mutual

/-- Python `repr` of a JSON-derived value (string escaping simplified to
plain single quotes). -/
def pyRepr : Json → String
  | .jstr s => squote ++ s ++ squote
  | .jnum n => toString n
  | .jbool b => if b then "True" else "False"
  | .jnull => "None"
  | .jarr xs => "[" ++ pyReprList xs ++ "]"
  | .jobj fs => "\x7b" ++ pyReprObj fs ++ "\x7d"

/-- Comma-separated `repr` of list elements. -/
def pyReprList : List Json → String
  | [] => ""
  | [v] => pyRepr v
  | v :: vs => pyRepr v ++ ", " ++ pyReprList vs

/-- Comma-separated `repr` of dict entries. -/
def pyReprObj : List (String × Json) → String
  | [] => ""
  | [(k, v)] => pyRepr (.jstr k) ++ ": " ++ pyRepr v
  | (k, v) :: fs => pyRepr (.jstr k) ++ ": " ++ pyRepr v ++ ", " ++ pyReprObj fs

end

/-- Python `str()` of a JSON-derived value: the string itself for strings,
`repr` otherwise. -/
def pyStr : Json → String
  | .jstr s => s
  | v => pyRepr v

/-- Python truthiness of a JSON-derived value (`if not meme_text`). -/
def truthy : Json → Bool
  | .jstr s => s ≠ ""
  | .jnum n => n ≠ 0
  | .jbool b => b
  | .jnull => false
  | .jarr [] => false
  | .jarr (_ :: _) => true
  | .jobj [] => false
  | .jobj (_ :: _) => true

/-- Python `str.strip()` with no argument: drop leading and trailing
whitespace (the common ASCII whitespace characters). -/
def pyStrip (s : String) : String :=
  ⟨((s.data.dropWhile Char.isWhitespace).reverse.dropWhile Char.isWhitespace).reverse⟩

/-- Lookup in a Python dict built by `json.loads` from a field list: with
duplicate keys the last occurrence wins. -/
def dictLookup (fs : List (String × Json)) (k : String) : Option Json :=
  fs.reverse.lookup k

/-- Python `dict.get(key, default)`. -/
def pyGet (fs : List (String × Json)) (k : String) (dflt : Json) : Json :=
  (dictLookup fs k).getD dflt

/-- Outcome of the Gemini model call for one image: an exception raised
anywhere in the `try` block before parsing, a response body rejected by
`json.loads`, or a successfully parsed JSON value. -/
inductive ModelOutcome where
  | exn
  | notJson
  | parsed (v : Json)

/-- Embedding of `extract_text_from_meme` (meme_dubber.py lines 29-109).
Given the model call's outcome, it returns `(meme_text, lang_code)`.
`json.loads` failure and any exception land in the `except` branch returning
`(None, "en")`.  On a parsed object it reads `result.get('text', '')` and
`result.get('language', 'en')`; a falsy text, or a truthy string text that is
whitespace-only, yields `(None, "en")`.  A truthy non-string text makes
`meme_text.strip()` raise `AttributeError`, caught by the same `except`
branch; likewise `result.get` on a parsed non-object raises. -/
def extract_text_from_meme (o : ModelOutcome) : Option String × Json :=
  match o with
  | .exn => (none, .jstr "en")
  | .notJson => (none, .jstr "en")
  | .parsed v =>
    match v with
    | .jobj fs =>
      let meme_text := pyGet fs "text" (.jstr "")
      let lang_code := pyGet fs "language" (.jstr "en")
      if truthy meme_text then
        match meme_text with
        | .jstr s => if pyStrip s = "" then (none, .jstr "en") else (some s, lang_code)
        | _ => (none, .jstr "en")
      else (none, .jstr "en")
    | _ => (none, .jstr "en")

/-- Outcome of one TTS backend invocation's bracketed library code: it raises
(import failure, unsupported language, synthesis or write exception), or the
save call completes and afterwards the output file exists or not, and is
empty or not.  The code consults only existence. -/
inductive SynthOutcome where
  | raises
  | saved (fileExists : Bool) (fileNonEmpty : Bool)
deriving DecidableEq

/-- Environment of the gTTS backend: its behaviour as a function of the text
and the language argument (the raw value forwarded by the caller), plus the
current working directory. -/
structure GttsEnv where
  outcome : String → Json → SynthOutcome
  cwd : String

/-- Environment of the ChatTTS backend: its behaviour depends only on the
text — `chat.infer([text])` and the file write never see the language
argument — plus the current working directory. -/
structure ChatttsEnv where
  outcome : String → SynthOutcome
  cwd : String

/-- POSIX `os.path.join(a, b)` for a relative second component: a separator
is inserted unless the first component is empty or already ends in one. -/
def pathJoin (a b : String) : String :=
  if a = "" then b
  else if a.data.getLast? = some (Char.ofNat 47) then a ++ b
  else a ++ "/" ++ b

/-- Embedding of `generate_audio_gtts` (meme_dubber.py lines 112-154): if the
bracketed code raises, the `except Exception` branch returns `None`;
otherwise the path is returned exactly when `os.path.exists` reports the file
present after `tts.save`. -/
def generate_audio_gtts (env : GttsEnv) (text : String) (lang_code : Json) : Option String :=
  match env.outcome text lang_code with
  | .raises => none
  | .saved fileExists _ =>
      if fileExists then some (pathJoin env.cwd "meme_audio_gtts.mp3") else none

/-- Embedding of `generate_audio_chattts` (meme_dubber.py lines 157-203):
same shape as the gTTS backend, with its own fixed filename; the
`lang_code` parameter is accepted but never read by the body. -/
def generate_audio_chattts (env : ChatttsEnv) (text : String) (lang_code : Json) : Option String :=
  match env.outcome text with
  | .raises => none
  | .saved fileExists _ =>
      if fileExists then some (pathJoin env.cwd "meme_audio_chattts.wav") else none

/-- Environment of the whole pipeline over an abstract image type `α`: the
model call's outcome per image and the two backend environments. -/
structure PipelineEnv (α : Type) where
  model : α → ModelOutcome
  gtts : GttsEnv
  chattts : ChatttsEnv

/-- Shared part of the status message: `f"**Extracted Text:** {meme_text}\n\n**Language:** {lang_code}"`. -/
def statusBase (meme_text : String) (lang_code : Json) : String :=
  "**Extracted Text:** " ++ meme_text ++ "\n\n**Language:** " ++ pyStr lang_code

/-- Audio-failure tail appended when the selected backend returned `None`. -/
def audioFailTail : String := "\n\n**Error:** Failed to generate audio"

/-- Status message of `process_meme` when image is absent. -/
def noImageMsg : String := "**Error:** Please upload an image first."

/-- Status message of `process_meme` when extraction yields no text. -/
def noTextMsg : String := "**Error:** No text found in the image. Please try another image."

/-- Embedding of the `try`/`except` region of `process_meme` (lines 228-247)
as a function of the bracketed computation's result: a raised exception `e`
is converted by the handler into an error status embedding `str(e)`, the
text and the language, with no audio; a returned `None` yields the
audio-failure status; a returned path yields the success status.  The
function is total: no outcome is re-raised to the caller. -/
def synth_report (meme_text : String) (lang_code : Json)
    (outcome : Except String (Option String)) : String × Option String :=
  match outcome with
  | .error e =>
      ("**Error generating audio:** " ++ e ++ "\n\n" ++ statusBase meme_text lang_code, none)
  | .ok none => (statusBase meme_text lang_code ++ audioFailTail, none)
  | .ok (some audio_file) => (statusBase meme_text lang_code, some audio_file)

/-- Backend dispatch of `process_meme` (lines 229-232): the string `"gTTS"`
selects the gTTS backend; every other selector value falls into the `else`
branch and runs ChatTTS. -/
def synth_dispatch (g : GttsEnv) (c : ChatttsEnv) (text : String) (lang_code : Json)
    (tts_engine : String) : Option String :=
  if tts_engine = "gTTS" then generate_audio_gtts g text lang_code
  else generate_audio_chattts c text lang_code

/-- Synthesis-and-report stage of `process_meme`: dispatch to the selected
backend, then report.  The embedded backends catch their own exceptions, so
the bracketed computation completes with `.ok`; `synth_report`'s `.error`
branch embeds the handler's behaviour for a raised fault. -/
def synth_stage (g : GttsEnv) (c : ChatttsEnv) (text : String) (lang_code : Json)
    (tts_engine : String) : String × Option String :=
  synth_report text lang_code (.ok (synth_dispatch g c text lang_code tts_engine))

/-- Embedding of `process_meme` (meme_dubber.py lines 206-247): absent image,
then extraction, then the guard `if not meme_text or meme_text is None`
(absent or falsy-empty text), then the synthesis-and-report stage. -/
def process_meme {α : Type} (env : PipelineEnv α) (image : Option α)
    (tts_engine : String) : String × Option String :=
  match image with
  | none => (noImageMsg, none)
  | some img =>
    let r := extract_text_from_meme (env.model img)
    match r.1 with
    | none => (noTextMsg, none)
    | some meme_text =>
      if meme_text = "" then (noTextMsg, none)
      else synth_stage env.gtts env.chattts meme_text r.2 tts_engine

/-- Extraction-failure causes enumerated by the specification: an exception
during the model call, a body that is not valid JSON, a parsed object with
the text field missing, or a text field that is an empty or whitespace-only
string. -/
def isFailureCause : ModelOutcome → Bool
  | .exn => true
  | .notJson => true
  | .parsed (.jobj fs) =>
      match dictLookup fs "text" with
      | none => true
      | some (.jstr s) => pyStrip s = ""
      | some _ => false
  | .parsed _ => false

/-- Concrete pipeline environment for witnesses: the model call raises and
both backends raise. -/
def envFailing : PipelineEnv Unit :=
  { model := fun _ => .exn
  , gtts := ⟨fun _ _ => .raises, "/work"⟩
  , chattts := ⟨fun _ => .raises, "/work"⟩ }

/-- Concrete pipeline environment for witnesses: extraction succeeds with
text "hi" and language "ja", both backends raise, so synthesis fails. -/
def envAudioFail : PipelineEnv Unit :=
  { model := fun _ => .parsed (.jobj [("text", .jstr "hi"), ("language", .jstr "ja")])
  , gtts := ⟨fun _ _ => .raises, "/work"⟩
  , chattts := ⟨fun _ => .raises, "/work"⟩ }

/-- C1: for every image on which the Caption Extractor returns absent or
empty text, and for every backend selector value, `process_meme` returns a
result with absent audio and the no-text-found status message. -/
theorem C1_extraction_failure_terminal {α : Type} (env : PipelineEnv α) (img : α)
    (tts_engine : String)
    (h : (extract_text_from_meme (env.model img)).1 = none ∨
         (extract_text_from_meme (env.model img)).1 = some "") :
    process_meme env (some img) tts_engine = (noTextMsg, none) := by
  unfold process_meme
  rcases h with h | h <;> simp [h]

/-- Witness for C1 at a concrete environment where the model call raises. -/
theorem C1_extraction_failure_terminal_witness :
    ((extract_text_from_meme (envFailing.model ())).1 = none ∨
     (extract_text_from_meme (envFailing.model ())).1 = some "") ∧
    process_meme envFailing (some ()) "gTTS" = (noTextMsg, none) :=
  ⟨Or.inl rfl, C1_extraction_failure_terminal envFailing () "gTTS" (Or.inl rfl)⟩

/-- C3: every extraction-failure cause — an exception during the model call,
a body that is not valid JSON, a missing text field, or an empty or
whitespace-only text field — collapses to the single return value
`(absent, "en")`. -/
theorem C3_failures_collapse (o : ModelOutcome) (h : isFailureCause o = true) :
    extract_text_from_meme o = (none, .jstr "en") := by
  cases o with
  | exn => rfl
  | notJson => rfl
  | parsed v =>
    cases v with
    | jobj fs =>
      simp only [isFailureCause] at h
      simp only [extract_text_from_meme, pyGet]
      cases hl : dictLookup fs "text" with
      | none => simp [hl, truthy]
      | some w =>
        rw [hl] at h
        cases w with
        | jstr s =>
          simp only [hl, Option.getD_some]
          by_cases hs : s = ""
          · simp [hs, truthy]
          · simp only [decide_eq_true_eq] at h
            simp [truthy, hs, h]
        | jnum n => simp at h
        | jbool b => simp at h
        | jnull => simp at h
        | jarr xs => simp at h
        | jobj gs => simp at h
    | jstr s => simp [isFailureCause] at h
    | jnum n => simp [isFailureCause] at h
    | jbool b => simp [isFailureCause] at h
    | jnull => simp [isFailureCause] at h
    | jarr xs => simp [isFailureCause] at h

/-- Witness for C3 at the exception outcome. -/
theorem C3_failures_collapse_witness :
    isFailureCause .exn = true ∧ extract_text_from_meme .exn = (none, .jstr "en") :=
  ⟨rfl, C3_failures_collapse .exn rfl⟩

/-- C10: the ChatTTS backend's result is independent of the language code:
its body never reads the `lang_code` parameter, so for every text (in
particular every non-empty text) and any two language codes the call
performs the same synthesis and returns the same result. -/
theorem C10_chattts_ignores_language (c : ChatttsEnv) (text : String) (l1 l2 : Json) :
    generate_audio_chattts c text l1 = generate_audio_chattts c text l2 := rfl

/-- C2: when the Synthesizer step fails — the selected backend returns absent,
or the bracketed step raises an exception described by `e` — the pipeline
returns absent audio and a status that still carries the extracted text and
the language code while reporting the audio failure (with the exception's
description in the raised case); the handler of `synth_report` returns a
value in every case, so the fault is never propagated to the caller. -/
theorem C2_synthesis_failure_handled {α : Type} (env : PipelineEnv α) (img : α)
    (tts_engine s : String) (l : Json) (e : String)
    (hx : extract_text_from_meme (env.model img) = (some s, l)) (hs : s ≠ "")
    (hnone : synth_dispatch env.gtts env.chattts s l tts_engine = none) :
    process_meme env (some img) tts_engine = (statusBase s l ++ audioFailTail, none) ∧
    synth_report s l (.error e) =
      ("**Error generating audio:** " ++ e ++ "\n\n" ++ statusBase s l, none) ∧
    statusBase s l = "**Extracted Text:** " ++ s ++ "\n\n**Language:** " ++ pyStr l := by
  refine ⟨?_, rfl, rfl⟩
  unfold process_meme
  simp [hx, hs, synth_stage, hnone, synth_report]

/-- Witness for C2 at a concrete environment whose backends both fail. -/
theorem C2_synthesis_failure_handled_witness :
    (extract_text_from_meme (envAudioFail.model ()) = (some "hi", .jstr "ja") ∧
     "hi" ≠ "" ∧
     synth_dispatch envAudioFail.gtts envAudioFail.chattts "hi" (.jstr "ja") "gTTS" = none) ∧
    (process_meme envAudioFail (some ()) "gTTS" =
       (statusBase "hi" (.jstr "ja") ++ audioFailTail, none) ∧
     synth_report "hi" (.jstr "ja") (.error "boom") =
       ("**Error generating audio:** " ++ "boom" ++ "\n\n" ++ statusBase "hi" (.jstr "ja"),
         none) ∧
     statusBase "hi" (.jstr "ja") =
       "**Extracted Text:** " ++ "hi" ++ "\n\n**Language:** " ++ pyStr (.jstr "ja")) :=
  ⟨⟨rfl, by decide, rfl⟩,
   C2_synthesis_failure_handled envAudioFail () "gTTS" "hi" (.jstr "ja") "boom"
     rfl (by decide) rfl⟩

/-- Model response used to refute C4: a well-formed object carrying exactly
the two keys the model is instructed to emit, `text` and `language_code`. -/
def c4Response : ModelOutcome :=
  .parsed (.jobj [("language_code", .jstr "ja"), ("text", .jstr "hello")])

/-- Counterexample to C4: on a response whose `language_code` field is "ja"
and whose `text` field is non-empty, `extract_text_from_meme` returns
language "en" (the default), not "ja" — the code never reads the
`language_code` key. -/
theorem C4_counterexample :
    extract_text_from_meme c4Response = (some "hello", .jstr "en") ∧
    pyStr (extract_text_from_meme c4Response).2 ≠ "ja" := by
  have h : extract_text_from_meme c4Response = (some "hello", .jstr "en") := rfl
  refine ⟨h, ?_⟩
  rw [h]
  decide

/-- C4 as amended: the extractor reads the language under the key
`language`, not `language_code`; for a parsed object with a non-empty,
non-whitespace string `text` field it returns the text together with the
value of the `language` key, defaulting to "en" when that key is absent —
so a `language_code` field never influences the result. -/
theorem C4_amended_language_key (fs : List (String × Json)) (T : String)
    (ht : dictLookup fs "text" = some (.jstr T)) (hT : T ≠ "") (htrim : pyStrip T ≠ "") :
    extract_text_from_meme (.parsed (.jobj fs)) =
      (some T, pyGet fs "language" (.jstr "en")) := by
  simp only [extract_text_from_meme, pyGet, ht, Option.getD_some]
  simp [truthy, hT, htrim]

/-- Witness for the amended C4 at the concrete `c4Response` fields. -/
theorem C4_amended_language_key_witness :
    (dictLookup [("language_code", Json.jstr "ja"), ("text", Json.jstr "hello")] "text" =
       some (.jstr "hello") ∧ "hello" ≠ "" ∧ pyStrip "hello" ≠ "") ∧
    extract_text_from_meme
        (.parsed (.jobj [("language_code", .jstr "ja"), ("text", .jstr "hello")])) =
      (some "hello",
        pyGet [("language_code", Json.jstr "ja"), ("text", Json.jstr "hello")] "language"
          (.jstr "en")) :=
  ⟨⟨rfl, by decide, by decide⟩,
   C4_amended_language_key [("language_code", .jstr "ja"), ("text", .jstr "hello")] "hello"
     rfl (by decide) (by decide)⟩

/-- Pipeline environment used to refute C5: extraction succeeds, the ChatTTS
backend succeeds, and the gTTS backend would raise. -/
def envC5 : PipelineEnv Unit :=
  { model := fun _ => .parsed (.jobj [("text", .jstr "hi"), ("language", .jstr "en")])
  , gtts := ⟨fun _ _ => .raises, "/work"⟩
  , chattts := ⟨fun _ => .saved true true, "/work"⟩ }

/-- Counterexample to C5: the unknown selector value "no-such-backend" is
routed to the ChatTTS backend and `process_meme` returns the very same
successful result as an explicit "ChatTTS" run — the unknown value falls
through to a backend with nothing in the result telling the caller. -/
theorem C5_counterexample :
    process_meme envC5 (some ()) "no-such-backend" =
      process_meme envC5 (some ()) "ChatTTS" ∧
    (process_meme envC5 (some ()) "no-such-backend").2 =
      some "/work/meme_audio_chattts.wav" :=
  ⟨rfl, rfl⟩

/-- C5 as amended: every selector value other than "gTTS" — unknown values
included — falls through to the `else` branch and behaves exactly like
selecting "ChatTTS"; the closed-set invariant is enforced only by the front
end's radio choices, not by `process_meme`. -/
theorem C5_amended_fallthrough {α : Type} (env : PipelineEnv α) (image : Option α)
    (tts_engine : String) (h : tts_engine ≠ "gTTS") :
    process_meme env image tts_engine = process_meme env image "ChatTTS" := by
  unfold process_meme synth_stage synth_dispatch
  simp [h]

/-- Witness for the amended C5 at the selector "no-such-backend". -/
theorem C5_amended_fallthrough_witness :
    "no-such-backend" ≠ "gTTS" ∧
    process_meme envC5 (some ()) "no-such-backend" =
      process_meme envC5 (some ()) "ChatTTS" :=
  ⟨by decide, C5_amended_fallthrough envC5 (some ()) "no-such-backend" (by decide)⟩

/-- C6: each synthesizer backend returns either a path or absent (its type is
`Option String` and the embedded functions are total, so no exception escapes
their `try`/`except Exception` boundary), and on any failure of the bracketed
library code — it raises (missing dependency, unsupported language code,
synthesis or write exception) or the post-write existence check fails — the
backend returns absent. -/
theorem C6_backends_absorb_failures (g : GttsEnv) (c : ChatttsEnv)
    (text : String) (lang_code : Json)
    (hg : g.outcome text lang_code = .raises ∨
          ∃ b, g.outcome text lang_code = .saved false b)
    (hc : c.outcome text = .raises ∨ ∃ b, c.outcome text = .saved false b) :
    generate_audio_gtts g text lang_code = none ∧
    generate_audio_chattts c text lang_code = none := by
  constructor
  · unfold generate_audio_gtts
    rcases hg with h | ⟨b, h⟩ <;> simp [h]
  · unfold generate_audio_chattts
    rcases hc with h | ⟨b, h⟩ <;> simp [h]

/-- Witness for C6 at backends whose library code raises. -/
theorem C6_backends_absorb_failures_witness :
    ((envFailing.gtts.outcome "hi" (.jstr "en") = .raises ∨
      ∃ b, envFailing.gtts.outcome "hi" (.jstr "en") = .saved false b) ∧
     (envFailing.chattts.outcome "hi" = .raises ∨
      ∃ b, envFailing.chattts.outcome "hi" = .saved false b)) ∧
    generate_audio_gtts envFailing.gtts "hi" (.jstr "en") = none ∧
    generate_audio_chattts envFailing.chattts "hi" (.jstr "en") = none :=
  ⟨⟨Or.inl rfl, Or.inl rfl⟩,
   C6_backends_absorb_failures envFailing.gtts envFailing.chattts "hi" (.jstr "en")
     (Or.inl rfl) (Or.inl rfl)⟩

/-- gTTS environment used to refute C7: the save call completes, and
afterwards the output file exists but is empty. -/
def gttsEmptyFile : GttsEnv := ⟨fun _ _ => .saved true false, "/work"⟩

/-- Counterexample to C7: with non-empty text and a supported language code,
the gTTS backend reports success with the output path even though the
written file is empty — the code checks only `os.path.exists` after the
write, never the file's size, so "exists and is non-empty" is not ensured. -/
theorem C7_counterexample :
    generate_audio_gtts gttsEmptyFile "hello" (.jstr "en") =
      some "/work/meme_audio_gtts.mp3" ∧
    gttsEmptyFile.outcome "hello" (.jstr "en") = .saved true false :=
  ⟨rfl, rfl⟩

/-- C7 as amended: when a backend called with non-empty text returns a
non-absent result, the returned value is the backend's fixed output path and
the file exists immediately after the call — each backend verifies existence
post-write before reporting success — but the code performs no non-emptiness
check, so only existence is guaranteed. -/
theorem C7_amended_file_exists_on_success (g : GttsEnv) (c : ChatttsEnv)
    (text : String) (lang_code : Json) (p q : String) (htext : text ≠ "")
    (hp : generate_audio_gtts g text lang_code = some p)
    (hq : generate_audio_chattts c text lang_code = some q) :
    (p = pathJoin g.cwd "meme_audio_gtts.mp3" ∧
      ∃ b, g.outcome text lang_code = .saved true b) ∧
    (q = pathJoin c.cwd "meme_audio_chattts.wav" ∧
      ∃ b, c.outcome text = .saved true b) := by
  constructor
  · unfold generate_audio_gtts at hp
    cases ho : g.outcome text lang_code with
    | raises => rw [ho] at hp; simp at hp
    | saved ex ne =>
      rw [ho] at hp
      cases ex with
      | false => simp at hp
      | true => simp at hp; exact ⟨hp.symm, ne, rfl⟩
  · unfold generate_audio_chattts at hq
    cases ho : c.outcome text with
    | raises => rw [ho] at hq; simp at hq
    | saved ex ne =>
      rw [ho] at hq
      cases ex with
      | false => simp at hq
      | true => simp at hq; exact ⟨hq.symm, ne, rfl⟩

/-- Witness for the amended C7 at backends that save successfully. -/
theorem C7_amended_file_exists_on_success_witness :
    ("hi" ≠ "" ∧
     generate_audio_gtts ⟨fun _ _ => .saved true true, "/work"⟩ "hi" (.jstr "en") =
       some "/work/meme_audio_gtts.mp3" ∧
     generate_audio_chattts ⟨fun _ => .saved true true, "/work"⟩ "hi" (.jstr "en") =
       some "/work/meme_audio_chattts.wav") ∧
    (("/work/meme_audio_gtts.mp3" : String) =
       pathJoin (GttsEnv.mk (fun _ _ => .saved true true) "/work").cwd "meme_audio_gtts.mp3" ∧
      ∃ b, (GttsEnv.mk (fun _ _ => .saved true true) "/work").outcome "hi" (.jstr "en") =
        .saved true b) ∧
    (("/work/meme_audio_chattts.wav" : String) =
       pathJoin (ChatttsEnv.mk (fun _ => .saved true true) "/work").cwd
         "meme_audio_chattts.wav" ∧
      ∃ b, (ChatttsEnv.mk (fun _ => .saved true true) "/work").outcome "hi" =
        .saved true b) :=
  ⟨⟨by decide, rfl, rfl⟩,
   C7_amended_file_exists_on_success ⟨fun _ _ => .saved true true, "/work"⟩
     ⟨fun _ => .saved true true, "/work"⟩ "hi" (.jstr "en")
     "/work/meme_audio_gtts.mp3" "/work/meme_audio_chattts.wav" (by decide) rfl rfl⟩

/-- Congruence of the synthesis-and-report stage: backend environments that
agree at the given text (and share working directories) yield identical
stage results for every selector. -/
theorem synth_stage_congr (g g2 : GttsEnv) (c c2 : ChatttsEnv) (text : String)
    (lang_code : Json) (tts_engine : String)
    (hg : g.outcome text lang_code = g2.outcome text lang_code) (hgc : g.cwd = g2.cwd)
    (hc : c.outcome text = c2.outcome text) (hcc : c.cwd = c2.cwd) :
    synth_stage g c text lang_code tts_engine =
      synth_stage g2 c2 text lang_code tts_engine := by
  unfold synth_stage synth_dispatch generate_audio_gtts generate_audio_chattts
  rw [hg, hgc, hc, hcc]

/-- C8: the pipeline's observable behaviour is unchanged when the backends'
behaviour is altered at the empty text only, for every image and selector —
so `process_meme` never consults a synthesizer backend with empty text
(absent text cannot even reach the call: the guard returns the no-text
status first); synthesis runs only after extraction produced non-empty
text. -/
theorem C8_synthesis_only_after_nonempty_text {α : Type} (env env2 : PipelineEnv α)
    (image : Option α) (tts_engine : String)
    (hm : env.model = env2.model)
    (hgc : env.gtts.cwd = env2.gtts.cwd) (hcc : env.chattts.cwd = env2.chattts.cwd)
    (hg : ∀ t l, t ≠ "" → env.gtts.outcome t l = env2.gtts.outcome t l)
    (hc : ∀ t, t ≠ "" → env.chattts.outcome t = env2.chattts.outcome t) :
    process_meme env image tts_engine = process_meme env2 image tts_engine := by
  unfold process_meme
  cases image with
  | none => rfl
  | some img =>
    rw [hm]
    cases hrx : (extract_text_from_meme (env2.model img)).1 with
    | none => simp [hrx]
    | some s =>
      simp only [hrx]
      by_cases hs : s = ""
      · simp [hs]
      · have hcongr := synth_stage_congr env.gtts env2.gtts env.chattts env2.chattts s
          (extract_text_from_meme (env2.model img)).2 tts_engine
          (hg s _ hs) hgc (hc s hs) hcc
        simp [hs, hcongr]

/-- Pipeline environment for the C8 witness: behaves like `envAudioFail` on
every non-empty text, but both backends would succeed on the empty text. -/
def envEmptyDiff : PipelineEnv Unit :=
  { model := fun _ => .parsed (.jobj [("text", .jstr "hi"), ("language", .jstr "ja")])
  , gtts := ⟨fun t _ => if t = "" then .saved true true else .raises, "/work"⟩
  , chattts := ⟨fun t => if t = "" then .saved true true else .raises, "/work"⟩ }

/-- Witness for C8: two environments differing only at the empty text give
the same pipeline result. -/
theorem C8_synthesis_only_after_nonempty_text_witness :
    (envAudioFail.model = envEmptyDiff.model ∧
     envAudioFail.gtts.cwd = envEmptyDiff.gtts.cwd ∧
     envAudioFail.chattts.cwd = envEmptyDiff.chattts.cwd ∧
     (∀ t l, t ≠ "" → envAudioFail.gtts.outcome t l = envEmptyDiff.gtts.outcome t l) ∧
     (∀ t, t ≠ "" → envAudioFail.chattts.outcome t = envEmptyDiff.chattts.outcome t)) ∧
    process_meme envAudioFail (some ()) "gTTS" =
      process_meme envEmptyDiff (some ()) "gTTS" :=
  ⟨⟨rfl, rfl, rfl,
    fun t l ht => by simp [envAudioFail, envEmptyDiff, ht],
    fun t ht => by simp [envAudioFail, envEmptyDiff, ht]⟩,
   C8_synthesis_only_after_nonempty_text envAudioFail envEmptyDiff (some ()) "gTTS"
     rfl rfl rfl
     (fun t l ht => by simp [envAudioFail, envEmptyDiff, ht])
     (fun t ht => by simp [envAudioFail, envEmptyDiff, ht])⟩

/-- C9: holding the extracted text and language code fixed, two runs of the
synthesis-and-report stage that differ only in the backend selector produce
status messages sharing the identical extracted-text-and-language portion
`statusBase text lang_code`; each status extends it at most by the
audio-failure tail, so only the audio artifact and the audio-failure
messaging can differ between the two runs. -/
theorem C9_status_portion_selector_independent (g : GttsEnv) (c : ChatttsEnv)
    (text : String) (lang_code : Json) (engine1 engine2 : String) :
    ∃ t1 t2,
      (synth_stage g c text lang_code engine1).1 = statusBase text lang_code ++ t1 ∧
      (synth_stage g c text lang_code engine2).1 = statusBase text lang_code ++ t2 ∧
      (t1 = "" ∨ t1 = audioFailTail) ∧ (t2 = "" ∨ t2 = audioFailTail) := by
  have key : ∀ e : String, ∃ t, (synth_stage g c text lang_code e).1 =
      statusBase text lang_code ++ t ∧ (t = "" ∨ t = audioFailTail) := by
    intro e
    unfold synth_stage synth_report
    cases synth_dispatch g c text lang_code e with
    | none => exact ⟨audioFailTail, rfl, Or.inr rfl⟩
    | some p =>
      refine ⟨"", ?_, Or.inl rfl⟩
      simp [String.append_empty]
  obtain ⟨t1, h1, ht1⟩ := key engine1
  obtain ⟨t2, h2, ht2⟩ := key engine2
  exact ⟨t1, t2, h1, h2, ht1, ht2⟩
